import Mathlib

/-!
Shallow embedding of the go-jwks client (src/client.go): a caching client
that fetches RSA signing keys from a JSON Web Key Set endpoint.

Modelling conventions.
Go time.Duration values are signed 64-bit counts of nanoseconds; we model
both durations and clock instants as Int, with the constant second equal
to 1000000000 mirroring time.Second. The zero value of time.Time (the
initial expiration of a fresh Client) is modelled as instant 0; every
instant produced by time.Now in a run of the program is strictly positive.
The HTTP transport and the JSON decoder are external collaborators: one
round trip is modelled by FetchResult (either a transport error, or a
status code together with the outcome of decoding the body into Keys), and
updateKeys consumes one such result per attempted fetch. Clock reads are
passed explicitly: GetKeys reads the clock once for its staleness test
(instant t0) and updateKeys reads it twice, for the double check under the
writer lock (t1) and for the expiration it installs (t2). The fetched
field of the results is ghost instrumentation recording whether the body
of updateKeys past the double check ran, that is whether a network fetch
was performed; the stale field of GetKeysResult records which branch the
staleness test took. The logger is an external sink that never influences
cache state or returned values, so it is not modelled.

The repository predates Go 1.22 (no go.mod, Travis CI era), so a range
loop has a single loop variable shared by all iterations; taking its
address inside the loop yields a pointer that, after the loop finishes,
points at the value of the final iteration. GetSigningKey is embedded
with exactly those semantics via signingKeyLoop.
-/

set_option linter.dupNamespace false

namespace GoJwks

/-- One JSON web key record, mirroring struct Key of client.go. -/
structure Key where
  Kid : String
  Kty : String
  Alg : String
  Use : String
  X5c : List String
  X5t : String
  N : String
  E : String
deriving Repr, DecidableEq, Inhabited

/-- A set of JSON web keys, mirroring struct Keys of client.go. -/
structure Keys where
  Keys : List Key
deriving Repr, DecidableEq, Inhabited

/-- time.Second as a count of nanoseconds. -/
def timeSecond : Int := 1000000000

/-- defaultRequestTimeout = time.Duration(30), a raw count of 30. -/
def defaultRequestTimeout : Int := 30

/-- defaultcacheTimeout = time.Duration(600), a raw count of 600. -/
def defaultcacheTimeout : Int := 600

/-- ClientConfig, mirroring the Go struct. The logger field is an external
sink and is not modelled. -/
structure ClientConfig where
  disableStrictTLS : Bool
  enableDebugLogging : Bool
  cacheTimeout : Int
  requestTimeout : Int
deriving Repr, DecidableEq, Inhabited

/-- NewConfig creates a configuration pre-populated with default values;
enableDebugLogging is left at its zero value false. -/
def NewConfig : ClientConfig :=
  { disableStrictTLS := false
    enableDebugLogging := false
    cacheTimeout := defaultcacheTimeout
    requestTimeout := defaultRequestTimeout }

/-- WithCacheTimeout sets the cache TTL for fetched keys. -/
def ClientConfig.WithCacheTimeout (c : ClientConfig) (timeout : Int) : ClientConfig :=
  { c with cacheTimeout := timeout }

/-- WithRequestTimeout sets the request timeout field of the configuration. -/
def ClientConfig.WithRequestTimeout (c : ClientConfig) (timeout : Int) : ClientConfig :=
  { c with requestTimeout := timeout }

/-- WithStrictTLSPolicy enables or disables TLS certificate verification. -/
def ClientConfig.WithStrictTLSPolicy (c : ClientConfig) (verificationDisabled : Bool) : ClientConfig :=
  { c with disableStrictTLS := verificationDisabled }

/-- WithDebugLogging sets the debug logging flag (the logger argument is an
external sink and is not modelled). -/
def ClientConfig.WithDebugLogging (c : ClientConfig) (enableDebugLogging : Bool) : ClientConfig :=
  { c with enableDebugLogging := enableDebugLogging }

/-- The per-client constants set up by NewClient: the stored configuration,
the endpoint URL, and the fields of the constructed http.Client that the
source sets (its Timeout, and InsecureSkipVerify on its TLS transport). -/
structure Client where
  config : ClientConfig
  endpointURL : String
  httpClientTimeout : Int
  tlsInsecureSkipVerify : Bool
deriving Repr, DecidableEq

/-- NewClient: a nil configuration is replaced by NewConfig; the http.Client
is built with Timeout equal to defaultRequestTimeout multiplied by
time.Second, exactly as in the source, and TLS InsecureSkipVerify taken
from config.disableStrictTLS. -/
def NewClient (jwksEndpoint : String) (config : Option ClientConfig) : Client :=
  let cfg := config.getD NewConfig
  { config := cfg
    endpointURL := jwksEndpoint
    httpClientTimeout := defaultRequestTimeout * timeSecond
    tlsInsecureSkipVerify := cfg.disableStrictTLS }

/-- The mutable cache of a Client: the expiration instant and the keys
pointer, nil at construction. Field order mirrors the Go struct. -/
structure ClientState where
  expiration : Int
  keys : Option Keys
deriving Repr, DecidableEq

/-- A fresh Client: keys is nil and expiration is the time.Time zero value,
modelled as instant 0. -/
def initialClientState : ClientState :=
  { expiration := 0, keys := none }

/-- The outcome of json.Decode on a response body: the parsed Keys, or the
decode error. -/
inductive DecodeOutcome where
  | ok (ks : Keys)
  | error (msg : String)
deriving Repr, DecidableEq

/-- The outcome of one HTTP round trip to the endpoint: a transport-level
error from httpClient.Get, or a response carrying a status code and the
outcome of json.Decode on its body. -/
inductive FetchResult where
  | transportError (msg : String)
  | response (statusCode : Nat) (body : DecodeOutcome)
deriving Repr, DecidableEq

/-- A fetch outcome on which updateKeys fails: a transport error, a status
of 400 or more, or a body that does not decode. -/
def fetchFails : FetchResult → Bool
  | .transportError _ => true
  | .response _ (.error _) => true
  | .response statusCode (.ok _) => decide (400 ≤ statusCode)

/-- The error values updateKeys can return: the transport error from
httpClient.Get, the formatted non-success status error, or the decode
error from json.Decode. -/
inductive JwksError where
  | transport (msg : String)
  | status (code : Nat)
  | parse (msg : String)
deriving Repr, DecidableEq

/-- Result of updateKeys: the cache state after the call, the returned
error, and ghost instrumentation recording whether a fetch was performed. -/
structure UpdateResult where
  state : ClientState
  err : Option JwksError
  fetched : Bool
deriving Repr, DecidableEq

/-- updateKeys, embedded from the source. Under the writer lock it first
re-checks time.Now().Before(c.expiration) at instant t1 and returns nil
without fetching when the expiration is still in the future; otherwise it
performs the GET. A transport error is returned unchanged; a status of 400
or more returns the status error with the body discarded; a decode failure
returns the decode error unchanged; otherwise the keys are stored and the
expiration becomes time.Now().Add(cacheTimeout multiplied by time.Second)
at instant t2, both in the same update. -/
def updateKeys (cfg : ClientConfig) (s : ClientState) (t1 t2 : Int)
    (fetch : FetchResult) : UpdateResult :=
  if t1 < s.expiration then
    { state := s, err := none, fetched := false }
  else
    match fetch with
    | .transportError msg =>
        { state := s, err := some (.transport msg), fetched := true }
    | .response statusCode body =>
        if 400 ≤ statusCode then
          { state := s, err := some (.status statusCode), fetched := true }
        else
          match body with
          | .error msg =>
              { state := s, err := some (.parse msg), fetched := true }
          | .ok ks =>
              { state := { expiration := t2 + cfg.cacheTimeout * timeSecond
                           keys := some ks }
                err := none
                fetched := true }

/-- Result of GetKeys: the cache state after the call, the returned slice
(none models a nil slice), the returned error, whether a network fetch
happened, and which branch the staleness test took. -/
structure GetKeysResult where
  state : ClientState
  result : Option (List Key)
  err : Option JwksError
  fetched : Bool
  stale : Bool
deriving Repr, DecidableEq

/-- GetKeys, embedded from the source. The fast path tests
c.keys == nil or time.Now().After(c.expiration) at instant t0; when that
test is false the cached slice is returned with a nil error. Otherwise
updateKeys runs and the function returns c.keys.Keys together with the
error from updateKeys. When c.keys is still nil at that point the source
panics dereferencing it; the deferred recover swallows the panic and the
named return values keys = nil, err are returned, which the none cases of
the map below reproduce. -/
def GetKeys (cfg : ClientConfig) (s : ClientState) (t0 t1 t2 : Int)
    (fetch : FetchResult) : GetKeysResult :=
  if s.keys = none ∨ s.expiration < t0 then
    let u := updateKeys cfg s t1 t2 fetch
    { state := u.state
      result := u.state.keys.map Keys.Keys
      err := u.err
      fetched := u.fetched
      stale := true }
  else
    { state := s
      result := s.keys.map Keys.Keys
      err := none
      fetched := false
      stale := false }

/-- The loop condition of GetSigningKey: key.Kid == kid and key.Use == "sig". -/
def isSigningMatch (kid : String) (k : Key) : Bool :=
  k.Kid == kid && k.Use == "sig"

/-- The range loop of GetSigningKey under the pre-Go-1.22 semantics of this
repository: keyVar models the single loop variable shared by all
iterations, and resultSet records whether result was ever assigned the
address of that variable. The pair returned is the final value of the loop
variable and the flag; the value the caller observes through the returned
pointer is the final loop-variable value, not the matching element. -/
def signingKeyLoop (kid : String) (keyVar : Option Key) (resultSet : Bool) :
    List Key → Option Key × Bool
  | [] => (keyVar, resultSet)
  | k :: rest =>
      signingKeyLoop kid (some k) (isSigningMatch kid k || resultSet) rest

/-- Result of GetSigningKey: cache state, the returned key pointer (none
models nil), the returned error, and the ghost fetch flag. -/
structure GetSigningKeyResult where
  state : ClientState
  result : Option Key
  err : Option JwksError
  fetched : Bool
deriving Repr, DecidableEq

/-- The body of GetSigningKey after its call to GetKeys: on a non-nil
error the error is propagated unchanged with a nil result; otherwise the
returned slice is scanned with the shared-loop-variable range loop and the
returned pointer is nil exactly when result was never assigned. -/
def sigKeyFromGetKeys (kid : String) (g : GetKeysResult) : GetSigningKeyResult :=
  match g.err with
  | some e =>
      { state := g.state, result := none, err := some e, fetched := g.fetched }
  | none =>
      let scan := signingKeyLoop kid none false (g.result.getD [])
      { state := g.state
        result := if scan.2 then scan.1 else none
        err := none
        fetched := g.fetched }

/-- GetSigningKey, embedded from the source: it calls GetKeys and then
runs the scan of sigKeyFromGetKeys on the outcome. -/
def GetSigningKey (cfg : ClientConfig) (s : ClientState) (kid : String)
    (t0 t1 t2 : Int) (fetch : FetchResult) : GetSigningKeyResult :=
  sigKeyFromGetKeys kid (GetKeys cfg s t0 t1 t2 fetch)

/-- A cache state arising in a run of the program: whenever the keys
pointer is nil the expiration still holds the time.Time zero value. True
of a fresh Client and preserved by every operation. -/
def ClientState.wellFormed (s : ClientState) : Prop :=
  s.keys = none → s.expiration = 0

/-- A signing key with identifier K1, used as a concrete cache inhabitant. -/
def keyK1 : Key :=
  { Kid := "K1", Kty := "RSA", Alg := "RS256", Use := "sig"
    X5c := [], X5t := "", N := "", E := "" }

/-- An encryption key with identifier K2, used as a concrete cache inhabitant. -/
def keyK2 : Key :=
  { Kid := "K2", Kty := "RSA", Alg := "RS256", Use := "enc"
    X5c := [], X5t := "", N := "", E := "" }

/-- When the double check sees a future expiration, updateKeys returns nil
without fetching and without touching the state. -/
theorem updateKeys_shortCircuit (cfg : ClientConfig) (s : ClientState) (t1 t2 : Int)
    (fetch : FetchResult) (h : t1 < s.expiration) :
    updateKeys cfg s t1 t2 fetch = { state := s, err := none, fetched := false } := by
  simp [updateKeys, h]

/-- A fetch past the double check with a success status and a decodable
body installs the keys and the expiration together. -/
theorem updateKeys_success (cfg : ClientConfig) (s : ClientState) (t1 t2 : Int)
    (statusCode : Nat) (ks : Keys) (h : s.expiration ≤ t1) (hst : statusCode < 400) :
    updateKeys cfg s t1 t2 (.response statusCode (.ok ks)) =
      { state := { expiration := t2 + cfg.cacheTimeout * timeSecond, keys := some ks }
        err := none, fetched := true } := by
  simp [updateKeys, not_lt.mpr h, Nat.not_le.mpr hst]

/-- Whenever updateKeys returns a non-nil error the cache state, keys and
expiration alike, is exactly what it was before the call. -/
theorem updateKeys_err_preserves (cfg : ClientConfig) (s : ClientState) (t1 t2 : Int)
    (fetch : FetchResult) :
    (updateKeys cfg s t1 t2 fetch).err.isSome → (updateKeys cfg s t1 t2 fetch).state = s := by
  unfold updateKeys
  split
  · simp
  · split
    · simp
    · split
      · simp
      · split
        · simp
        · simp

/-- updateKeys performs a network fetch exactly when the double check finds
the expiration not in the future. -/
theorem updateKeys_fetched_iff (cfg : ClientConfig) (s : ClientState) (t1 t2 : Int)
    (fetch : FetchResult) :
    (updateKeys cfg s t1 t2 fetch).fetched = true ↔ s.expiration ≤ t1 := by
  unfold updateKeys
  split
  case isTrue h => simp; omega
  case isFalse h =>
    have h2 : s.expiration ≤ t1 := by omega
    split
    · simp [h2]
    · split
      · simp [h2]
      · split
        · simp [h2]
        · simp [h2]

/-- A fetch past the double check on a failing outcome returns a non-nil
error and preserves the state. -/
theorem updateKeys_fail (cfg : ClientConfig) (s : ClientState) (t1 t2 : Int)
    (fetch : FetchResult) (h : s.expiration ≤ t1) (hf : fetchFails fetch = true) :
    (updateKeys cfg s t1 t2 fetch).state = s ∧
    (updateKeys cfg s t1 t2 fetch).err.isSome = true := by
  cases fetch with
  | transportError msg => simp [updateKeys, not_lt.mpr h]
  | response statusCode body =>
      cases body with
      | error msg =>
          by_cases h4 : 400 ≤ statusCode <;> simp [updateKeys, not_lt.mpr h, h4]
      | ok ks =>
          have h4 : 400 ≤ statusCode := by simpa [fetchFails] using hf
          simp [updateKeys, not_lt.mpr h, h4]

/-- The closed form of the shared-loop-variable scan: the final loop
variable is the last element when the list is nonempty, and the result
flag records whether any element matched. -/
theorem signingKeyLoop_spec (kid : String) (l : List Key) (keyVar : Option Key)
    (resultSet : Bool) :
    signingKeyLoop kid keyVar resultSet l
      = (l.getLast?.or keyVar, resultSet || l.any (isSigningMatch kid)) := by
  induction l generalizing keyVar resultSet with
  | nil => simp [signingKeyLoop]
  | cons k rest ih =>
      rw [signingKeyLoop, ih]
      simp only [Prod.mk.injEq, List.any_cons]
      constructor
      · cases rest with
        | nil => simp
        | cons a as =>
            obtain ⟨y, hy⟩ := Option.isSome_iff_exists.mp
              (List.getLast?_isSome.mpr (List.cons_ne_nil a as))
            simp [hy]
      · cases isSigningMatch kid k <;> cases resultSet <;> simp

/-- updateKeys preserves well-formedness of the cache state. -/
theorem updateKeys_wellFormed (cfg : ClientConfig) (s : ClientState) (t1 t2 : Int)
    (fetch : FetchResult) (hwf : s.wellFormed) :
    (updateKeys cfg s t1 t2 fetch).state.wellFormed := by
  unfold updateKeys
  split
  · exact hwf
  · split
    · exact hwf
    · split
      · exact hwf
      · split
        · exact hwf
        · intro hk
          simp at hk

/-- In a well-formed state reached at a positive instant, a nil error from
updateKeys means the state holds a key set. -/
theorem updateKeys_ok_keys (cfg : ClientConfig) (s : ClientState) (t1 t2 : Int)
    (fetch : FetchResult) (hwf : s.wellFormed) (ht1 : 0 < t1) :
    (updateKeys cfg s t1 t2 fetch).err = none →
    (updateKeys cfg s t1 t2 fetch).state.keys.isSome = true := by
  unfold updateKeys
  split
  case isTrue h =>
    intro _
    cases hk : s.keys with
    | none => have h0 := hwf hk; omega
    | some ks => simp [hk]
  case isFalse h =>
    split
    · simp
    · split
      · simp
      · split
        · simp
        · simp

/-- When sigKeyFromGetKeys returns a nil pointer with a nil error, no
element of the slice returned by GetKeys matched the requested kid with
use sig. -/
theorem sigKey_none_no_match (kid : String) (g : GetKeysResult)
    (he : (sigKeyFromGetKeys kid g).err = none)
    (hr : (sigKeyFromGetKeys kid g).result = none) :
    ∀ k ∈ g.result.getD [], isSigningMatch kid k = false := by
  intro k hk
  by_contra hmk
  have hmk2 : isSigningMatch kid k = true := by
    cases hb : isSigningMatch kid k
    · exact absurd hb hmk
    · rfl
  have hany : (g.result.getD []).any (isSigningMatch kid) = true :=
    List.any_eq_true.mpr ⟨k, hk, by simp [hmk2]⟩
  cases hge : g.err with
  | some e => simp [sigKeyFromGetKeys, hge] at he
  | none =>
      have hne : g.result.getD [] ≠ [] := List.ne_nil_of_mem hk
      obtain ⟨y, hy⟩ := Option.isSome_iff_exists.mp (List.getLast?_isSome.mpr hne)
      simp [sigKeyFromGetKeys, hge, signingKeyLoop_spec, hany, hy] at hr

/-- Claim C1: on every failing refresh the cached key set and its
expiration are exactly what they were before the call; starting from an
empty cache, a GetKeys call whose fetch fails returns a non-nil error, a
nil slice and an unchanged empty cache, and a later GetKeys call with a
succeeding fetch still populates the cache. -/
theorem failedRefresh_preserves_cache (cfg : ClientConfig) :
    (∀ (s : ClientState) (t1 t2 : Int) (fetch : FetchResult),
        (updateKeys cfg s t1 t2 fetch).err.isSome →
        (updateKeys cfg s t1 t2 fetch).state = s) ∧
    (∀ (t0 t1 t2 : Int) (fetch : FetchResult), 0 ≤ t1 → fetchFails fetch = true →
        (GetKeys cfg initialClientState t0 t1 t2 fetch).err.isSome = true ∧
        (GetKeys cfg initialClientState t0 t1 t2 fetch).state = initialClientState ∧
        (GetKeys cfg initialClientState t0 t1 t2 fetch).result = none) ∧
    (∀ (t0 t1 t2 u0 u1 u2 : Int) (fetch : FetchResult) (statusCode : Nat) (ks : Keys),
        0 ≤ t1 → fetchFails fetch = true → 0 ≤ u1 → statusCode < 400 →
        (GetKeys cfg (GetKeys cfg initialClientState t0 t1 t2 fetch).state
            u0 u1 u2 (.response statusCode (.ok ks))).state.keys = some ks ∧
        (GetKeys cfg (GetKeys cfg initialClientState t0 t1 t2 fetch).state
            u0 u1 u2 (.response statusCode (.ok ks))).err = none) := by
  have hfail : ∀ (t0 t1 t2 : Int) (fetch : FetchResult), 0 ≤ t1 → fetchFails fetch = true →
      (GetKeys cfg initialClientState t0 t1 t2 fetch).err.isSome = true ∧
      (GetKeys cfg initialClientState t0 t1 t2 fetch).state = initialClientState ∧
      (GetKeys cfg initialClientState t0 t1 t2 fetch).result = none := by
    intro t0 t1 t2 fetch ht1 hf
    obtain ⟨hs, he⟩ := updateKeys_fail cfg initialClientState t1 t2 fetch
      (by simpa [initialClientState] using ht1) hf
    unfold GetKeys
    rw [if_pos (show initialClientState.keys = none ∨ initialClientState.expiration < t0
          from Or.inl rfl)]
    refine ⟨by simpa using he, by simpa using hs, ?_⟩
    show Option.map Keys.Keys (updateKeys cfg initialClientState t1 t2 fetch).state.keys = none
    rw [hs]
    rfl
  refine ⟨fun s t1 t2 fetch => updateKeys_err_preserves cfg s t1 t2 fetch, hfail, ?_⟩
  intro t0 t1 t2 u0 u1 u2 fetch statusCode ks ht1 hf hu1 hst
  rw [(hfail t0 t1 t2 fetch ht1 hf).2.1]
  have hu : updateKeys cfg initialClientState u1 u2 (.response statusCode (.ok ks))
      = { state := { expiration := u2 + cfg.cacheTimeout * timeSecond, keys := some ks }
          err := none, fetched := true } :=
    updateKeys_success cfg initialClientState u1 u2 statusCode ks
      (by simpa [initialClientState] using hu1) hst
  unfold GetKeys
  rw [if_pos (show initialClientState.keys = none ∨ initialClientState.expiration < u0
        from Or.inl rfl)]
  rw [hu]
  exact ⟨rfl, rfl⟩

/-- Witness for claim C1 at concrete inputs: a fetch answered with status
500 from the empty cache leaves the cache empty, and a following call
whose fetch succeeds with one key installs that key set. -/
theorem failedRefresh_preserves_cache_witness :
    (GetKeys NewConfig initialClientState 1 1 1 (.response 500 (.error "bad"))).state
        = initialClientState ∧
    (GetKeys NewConfig (GetKeys NewConfig initialClientState 1 1 1
          (.response 500 (.error "bad"))).state 2 2 2
        (.response 200 (.ok { Keys := [keyK1] }))).state.keys = some { Keys := [keyK1] } :=
  ⟨((failedRefresh_preserves_cache NewConfig).2.1 1 1 1 _ (by decide) (by decide)).2.1,
   ((failedRefresh_preserves_cache NewConfig).2.2 1 1 1 2 2 2 _ 200 { Keys := [keyK1] }
      (by decide) (by decide) (by decide) (by decide)).1⟩

/-- Claim C2: while the cached entry is not expired no network fetch is
performed — of two immediately successive GetKeys calls after a success
only the first fetches, the second is served from the cache unchanged, and
a refresh attempt entered while the expiration lies in the future returns
success at once without fetching or modifying any state. -/
theorem freshCache_no_fetch (cfg : ClientConfig) (ks : Keys)
    (t0 t1 t2 u0 : Int) (statusCode : Nat)
    (h1 : 0 ≤ t1) (hst : statusCode < 400)
    (h0 : u0 ≤ t2 + cfg.cacheTimeout * timeSecond) :
    (GetKeys cfg initialClientState t0 t1 t2 (.response statusCode (.ok ks))).fetched = true ∧
    (∀ (u1 u2 : Int) (fetch2 : FetchResult),
      GetKeys cfg (GetKeys cfg initialClientState t0 t1 t2 (.response statusCode (.ok ks))).state
          u0 u1 u2 fetch2
        = { state := (GetKeys cfg initialClientState t0 t1 t2 (.response statusCode (.ok ks))).state
            result := some ks.Keys
            err := none
            fetched := false
            stale := false }) ∧
    (∀ (s : ClientState) (u1 u2 : Int) (fetch : FetchResult), u1 < s.expiration →
      updateKeys cfg s u1 u2 fetch = { state := s, err := none, fetched := false }) := by
  have hu : updateKeys cfg initialClientState t1 t2 (.response statusCode (.ok ks))
      = { state := { expiration := t2 + cfg.cacheTimeout * timeSecond, keys := some ks }
          err := none, fetched := true } :=
    updateKeys_success cfg initialClientState t1 t2 statusCode ks
      (by simpa [initialClientState] using h1) hst
  have hfirst : GetKeys cfg initialClientState t0 t1 t2 (.response statusCode (.ok ks))
      = { state := { expiration := t2 + cfg.cacheTimeout * timeSecond, keys := some ks }
          result := some ks.Keys
          err := none
          fetched := true
          stale := true } := by
    unfold GetKeys
    rw [if_pos (show initialClientState.keys = none ∨ initialClientState.expiration < t0
          from Or.inl rfl)]
    rw [hu]
    rfl
  refine ⟨by rw [hfirst], ?_,
    fun s u1 u2 fetch hlt => updateKeys_shortCircuit cfg s u1 u2 fetch hlt⟩
  intro u1 u2 fetch2
  rw [hfirst]
  unfold GetKeys
  rw [if_neg (by push_neg; exact ⟨by simp, by simpa using h0⟩)]
  rfl

/-- Witness for claim C2 at concrete inputs: the first call fetches once
and the second, arriving one instant later, is served from the cache even
though its own fetch outcome would be a transport failure. -/
theorem freshCache_no_fetch_witness :
    (GetKeys NewConfig initialClientState 1 1 1
        (.response 200 (.ok { Keys := [keyK1] }))).fetched = true ∧
    GetKeys NewConfig
        (GetKeys NewConfig initialClientState 1 1 1
          (.response 200 (.ok { Keys := [keyK1] }))).state
        2 2 2 (.transportError "down")
      = { state := (GetKeys NewConfig initialClientState 1 1 1
                      (.response 200 (.ok { Keys := [keyK1] }))).state
          result := some [keyK1]
          err := none
          fetched := false
          stale := false } := by
  have h := freshCache_no_fetch NewConfig { Keys := [keyK1] } 1 1 1 2 200
      (by decide) (by decide) (by decide)
  exact ⟨h.1, h.2.1 2 2 (.transportError "down")⟩

/-- Claim C3, evaluation of the code at the failing input: with cached
keys [keyK1, keyK2] of which only keyK1 matches kid K1 with use sig,
GetSigningKey for K1 returns keyK2 — the final element of the slice, since
result stores the address of the range-loop variable shared by all
iterations — and the returned key does not carry the requested kid. -/
theorem getSigningKey_returns_final_element :
    (GetSigningKey NewConfig { expiration := 10, keys := some { Keys := [keyK1, keyK2] } }
        "K1" 5 5 5 (.transportError "unused")).result = some keyK2 ∧
    (GetSigningKey NewConfig { expiration := 10, keys := some { Keys := [keyK1, keyK2] } }
        "K1" 5 5 5 (.transportError "unused")).err = none ∧
    isSigningMatch "K1" keyK1 = true ∧
    isSigningMatch "K1" keyK2 = false ∧
    keyK2.Kid ≠ "K1" := by
  decide

/-- Claim C4, counterexample: with the entry of expiration 5 present, at
the boundary instant now = 5 the GetKeys staleness test is false — the
claim predicts stale — no refresh is entered and the cached slice is
returned, while the updateKeys double check at the very same instant does
proceed to fetch, so the two checks are not the same predicate. -/
theorem stale_boundary_counterexample :
    (GetKeys NewConfig { expiration := 5, keys := some { Keys := [keyK1] } } 5 5 5
        (.response 200 (.ok { Keys := [keyK2] }))).stale = false ∧
    (GetKeys NewConfig { expiration := 5, keys := some { Keys := [keyK1] } } 5 5 5
        (.response 200 (.ok { Keys := [keyK2] }))).fetched = false ∧
    (GetKeys NewConfig { expiration := 5, keys := some { Keys := [keyK1] } } 5 5 5
        (.response 200 (.ok { Keys := [keyK2] }))).result = some [keyK1] ∧
    (updateKeys NewConfig { expiration := 5, keys := some { Keys := [keyK1] } } 5 5
        (.response 200 (.ok { Keys := [keyK2] }))).fetched = true := by
  decide

/-- Claim C4 as amended: the GetKeys fast path treats the entry as stale
exactly when no entry exists yet or now is strictly after the expiration,
so the boundary instant still counts as fresh there, while the updateKeys
double check proceeds to fetch exactly when now is at or after the
expiration and performs no nil-entry test; the two checks differ at the
boundary instant. -/
theorem stale_checks_differ_at_boundary (cfg : ClientConfig) (s : ClientState)
    (t0 t1 t2 : Int) (fetch : FetchResult) :
    ((GetKeys cfg s t0 t1 t2 fetch).stale = true ↔ (s.keys = none ∨ s.expiration < t0)) ∧
    ((updateKeys cfg s t1 t2 fetch).fetched = true ↔ s.expiration ≤ t1) := by
  constructor
  · unfold GetKeys
    split
    case isTrue h => simpa using h
    case isFalse h => simpa using h
  · exact updateKeys_fetched_iff cfg s t1 t2 fetch

/-- Claim C5: past the double check, the fetch step fails with the status
error carrying the numeric code, body discarded, for every status of 400
or more; with the decode error for every status under 400 whose body does
not decode; with the transport error on transport failure; and succeeds
otherwise; GetKeys returns the updateKeys error unchanged whenever it
enters the refresh and no error otherwise. -/
theorem fetch_error_kinds (cfg : ClientConfig) (s : ClientState) (t0 t1 t2 : Int)
    (h : s.expiration ≤ t1) :
    (∀ msg, updateKeys cfg s t1 t2 (.transportError msg)
        = { state := s, err := some (.transport msg), fetched := true }) ∧
    (∀ (statusCode : Nat) (body : DecodeOutcome), 400 ≤ statusCode →
        updateKeys cfg s t1 t2 (.response statusCode body)
          = { state := s, err := some (.status statusCode), fetched := true }) ∧
    (∀ (statusCode : Nat) (msg : String), statusCode < 400 →
        updateKeys cfg s t1 t2 (.response statusCode (.error msg))
          = { state := s, err := some (.parse msg), fetched := true }) ∧
    (∀ (statusCode : Nat) (ks : Keys), statusCode < 400 →
        (updateKeys cfg s t1 t2 (.response statusCode (.ok ks))).err = none) ∧
    (∀ fetch : FetchResult, (GetKeys cfg s t0 t1 t2 fetch).err
        = if s.keys = none ∨ s.expiration < t0
          then (updateKeys cfg s t1 t2 fetch).err else none) := by
  refine ⟨?_, ?_, ?_, ?_, ?_⟩
  · intro msg; simp [updateKeys, not_lt.mpr h]
  · intro statusCode body h4; simp [updateKeys, not_lt.mpr h, h4]
  · intro statusCode msg h4; simp [updateKeys, not_lt.mpr h, Nat.not_le.mpr h4]
  · intro statusCode ks h4; simp [updateKeys, not_lt.mpr h, Nat.not_le.mpr h4]
  · intro fetch
    unfold GetKeys
    split
    case isTrue hc => simp [hc]
    case isFalse hc => simp [hc]

/-- Witness for claim C5 at a concrete input: a response with status 500
past the double check yields the status error and an untouched state. -/
theorem fetch_error_kinds_witness :
    updateKeys NewConfig initialClientState 0 0 (.response 500 (.ok { Keys := [] }))
      = { state := initialClientState, err := some (.status 500), fetched := true } :=
  (fetch_error_kinds NewConfig initialClientState 0 0 0 (by decide)).2.1 500
    (.ok { Keys := [] }) (by decide)

/-- Claim C6, evaluation of the code at the failing input: NewClient
stores the configured requestTimeout of 42 but builds its http.Client with
Timeout equal to defaultRequestTimeout multiplied by time.Second, so the
requests of a client configured with WithRequestTimeout 42 still run with
the 30 second default rather than 42. -/
theorem newClient_ignores_requestTimeout :
    (NewClient "endpoint" (some (NewConfig.WithRequestTimeout 42))).config.requestTimeout = 42 ∧
    (NewClient "endpoint" (some (NewConfig.WithRequestTimeout 42))).httpClientTimeout
      = defaultRequestTimeout * timeSecond ∧
    (NewClient "endpoint" (some (NewConfig.WithRequestTimeout 42))).httpClientTimeout
      ≠ 42 * timeSecond ∧
    (NewClient "endpoint" (some (NewConfig.WithRequestTimeout 42))).httpClientTimeout ≠ 42 :=
  ⟨rfl, rfl, by decide, by decide⟩

/-- Claim C7: every successful fetch installs, in one and the same state
update, the parsed key set together with an expiration equal to the fetch
completion instant plus the configured cache timeout (its stored count
scaled by time.Second exactly as the source writes cacheTimeout multiplied
by time.Second), for every configured cacheTimeout value. -/
theorem success_installs_entry (cfg : ClientConfig) (s : ClientState)
    (t1 t2 : Int) (statusCode : Nat) (ks : Keys)
    (h : s.expiration ≤ t1) (hst : statusCode < 400) :
    updateKeys cfg s t1 t2 (.response statusCode (.ok ks)) =
      { state := { expiration := t2 + cfg.cacheTimeout * timeSecond, keys := some ks }
        err := none
        fetched := true } :=
  updateKeys_success cfg s t1 t2 statusCode ks h hst

/-- Witness for claim C7 at a concrete input with a non-default cache
timeout of 7 units and completion instant 3. -/
theorem success_installs_entry_witness :
    updateKeys (NewConfig.WithCacheTimeout 7) initialClientState 1 3
        (.response 200 (.ok { Keys := [keyK1] })) =
      { state := { expiration := 3 + (NewConfig.WithCacheTimeout 7).cacheTimeout * timeSecond
                   keys := some { Keys := [keyK1] } }
        err := none
        fetched := true } :=
  success_installs_entry (NewConfig.WithCacheTimeout 7) initialClientState 1 3 200
    { Keys := [keyK1] } (by decide) (by decide)

/-- Claim C8: in every run — well-formed cache state, positive clock
instants — a caller of GetKeys receives a usable slice or a non-nil error,
never a nil slice with a nil error; well-formedness is preserved; and
GetSigningKey returns a nil pointer with a nil error only in the
legitimate case that no element of the slice GetKeys produced matches the
requested kid with use sig. -/
theorem no_silent_empty_result (cfg : ClientConfig) (s : ClientState) (kid : String)
    (t0 t1 t2 : Int) (fetch : FetchResult)
    (hwf : s.wellFormed) (ht1 : 0 < t1) :
    ((GetKeys cfg s t0 t1 t2 fetch).err = none →
        (GetKeys cfg s t0 t1 t2 fetch).result.isSome = true) ∧
    (GetKeys cfg s t0 t1 t2 fetch).state.wellFormed ∧
    ((GetSigningKey cfg s kid t0 t1 t2 fetch).err = none →
        (GetSigningKey cfg s kid t0 t1 t2 fetch).result = none →
        ∀ k ∈ (GetKeys cfg s t0 t1 t2 fetch).result.getD [],
          isSigningMatch kid k = false) ∧
    initialClientState.wellFormed := by
  refine ⟨?_, ?_, ?_, fun h => rfl⟩
  · unfold GetKeys
    split
    case isTrue hc =>
      intro he
      have hks := updateKeys_ok_keys cfg s t1 t2 fetch hwf ht1 (by simpa using he)
      simpa using hks
    case isFalse hc =>
      intro _
      push_neg at hc
      obtain ⟨hk, _⟩ := hc
      cases hks : s.keys with
      | none => exact absurd hks hk
      | some ks => simp [hks]
  · unfold GetKeys
    split
    case isTrue hc => exact updateKeys_wellFormed cfg s t1 t2 fetch hwf
    case isFalse hc => exact hwf
  · intro he hr
    exact sigKey_none_no_match kid (GetKeys cfg s t0 t1 t2 fetch) he hr

/-- Witness for claim C8 at a concrete input: a fresh client whose fetch
succeeds with one key receives a non-nil slice. -/
theorem no_silent_empty_result_witness :
    (GetKeys NewConfig initialClientState 1 1 1
        (.response 200 (.ok { Keys := [keyK1] }))).result.isSome = true :=
  (no_silent_empty_result NewConfig initialClientState "K1" 1 1 1
      (.response 200 (.ok { Keys := [keyK1] })) (fun _ => rfl) (by decide)).1 (by decide)

/-- Claim C10: default construction via NewConfig, and equivalently via
NewClient with a nil configuration, yields cache timeout 600 time units,
request timeout 30 time units, strict TLS verification enabled (the
disableStrictTLS flag false) and debug logging disabled. -/
theorem newConfig_defaults :
    NewConfig.cacheTimeout = 600 ∧
    NewConfig.requestTimeout = 30 ∧
    NewConfig.disableStrictTLS = false ∧
    NewConfig.enableDebugLogging = false ∧
    ∀ url : String, (NewClient url none).config = NewConfig :=
  ⟨rfl, rfl, rfl, rfl, fun _ => rfl⟩

end GoJwks
